import Mathlib

/-!
Shallow embedding of the waifu-chat-api conversation pipeline
(`src/waifuapi_process.py`, `src/waifuapi_validation.py`,
`src/waifuapi_translate.py`, `src/blueprints/dialog.py`,
`src/blueprints/chat.py`).  Python strings are modelled as `List Char`;
Python exceptions as an `Except PyExc` result; Python's negative-index
slicing as `pySuffix` below.
-/

namespace WaifuApi

/-- Python exceptions relevant to the modelled code paths. -/
inductive PyExc where
  | validationError
  | nameError
  deriving DecidableEq, Repr

/-- Python `s[-n:]` for an arbitrary integer `n` (the code computes the
slice bound `len_dialog` as an integer that may be zero or negative).
For `n > 0` this keeps the last `min n (length s)` characters; for
`n = 0` Python's `s[-0:]` is `s[0:]`, the whole string; for `n < 0`
it is `s[(-n):]`, dropping the first `-n` characters. -/
def pySuffix (s : List Char) (n : Int) : List Char :=
  if 0 < n then s.drop (s.length - n.toNat) else s.drop (-n).toNat

/-- The characters of Python's `str.isspace`-style whitespace class used by
`str.strip()` and by `re`'s `\s`, restricted to ASCII. -/
def isPyWs (c : Char) : Bool :=
  c = ' ' || c = '\t' || c = '\n' || c = '\r' || c = '\x0b' || c = '\x0c'

/-- Python `str.strip()`: drop leading and trailing whitespace. -/
def pyStrip (s : List Char) : List Char :=
  ((s.dropWhile isPyWs).reverse.dropWhile isPyWs).reverse

/-- Membership in Python's `string.printable` (digits, letters, punctuation
and the whitespace characters `' \t\n\r\x0b\x0c'`): code points 32–126
plus the five control whitespace characters. -/
def stringPrintable (c : Char) : Bool :=
  (32 ≤ c.toNat && c.toNat ≤ 126) ||
    (c = '\t' || c = '\n' || c = '\r' || c = '\x0b' || c = '\x0c')

/-- `waifuapi_validation.sanitize_text`: filter to the allowed character
set (printable, plus `'\n\r\t'` when newlines are allowed, always
requiring code point ≥ 32), strip surrounding whitespace, then RAISE
`ValidationError` when the result exceeds `max_length`. -/
def sanitize_text (text : List Char) (max_length : Nat) (allow_newlines : Bool) :
    Except PyExc (List Char) :=
  let allowed : Char → Bool := fun c =>
    if allow_newlines then stringPrintable c || (c = '\n' || c = '\r' || c = '\t')
    else stringPrintable c
  let sanitized := text.filter (fun c => allowed c && decide (32 ≤ c.toNat))
  let sanitized := pyStrip sanitized
  if max_length < sanitized.length then Except.error PyExc.validationError
  else Except.ok sanitized

/-- `waifuapi_process.clean_paragraph`: delegates to `sanitize_text` with
`max_length=1250`, `allow_newlines=True`. -/
def clean_paragraph (paragraph : List Char) : Except PyExc (List Char) :=
  sanitize_text paragraph 1250 true

/-- The supported-language allow-list of
`waifuapi_translate.language_defaulter`, transcribed verbatim. -/
def supportedLanguages : List String :=
  ["af", "sq", "am", "ar", "hy", "az", "eu", "be", "bn", "bs", "bg", "ca",
   "ceb", "Zh-CN", "zh-CN", "zh", "Zh-TW", "zh-TW", "co", "hr", "cs", "da",
   "nl", "en", "eo", "et", "fi", "fr", "fy", "gl", "ka", "de", "el", "gu",
   "ht", "ha", "haw", "he", "iw", "hi", "hmn", "hu", "is", "ig", "id", "ga",
   "it", "ja", "jv", "kn", "kk", "km", "rw", "ko", "ku", "ky", "lo", "la",
   "lv", "lt", "lb", "mk", "mg", "ms", "ml", "mt", "mi", "mr", "mn", "my",
   "ne", "no", "ny", "or", "ps", "fa", "pl", "pt", "pa", "ro", "ru", "sm",
   "gd", "sr", "st", "sn", "sd", "si", "sk", "sl", "so", "es", "su", "sw",
   "sv", "tl", "tg", "ta", "tt", "te", "th", "tr", "tk", "uk", "ur", "ug",
   "uz", "vi", "cy", "xh", "yi", "yo", "zu"]

/-- `waifuapi_translate.language_defaulter`: keep a supported tag,
otherwise default to `"auto"`. -/
def language_defaulter (language : String) : String :=
  if language ∈ supportedLanguages then language else "auto"

/-- Result of the Prompt Assembler region of `process_message`
(`waifuapi_process.py` lines 147–181): the truncated transcript-update
string (`dialog_new`), the truncated model-input string
(`dialog_to_send`), and the untruncated candidates they were cut from. -/
structure AsmResult where
  situation_cropped : List Char
  len_dialog : Int
  dialog_old_trunc : List Char
  dialog_new_candidate : List Char
  dialog_new : List Char
  dialog_to_send_candidate : List Char
  dialog_to_send : List Char
  deriving DecidableEq, Repr

/-- The Prompt Assembler (`process_message`, lines 147–181), with the
already-sanitized `situation` and `message` as inputs and the configured
genre as a parameter.  `max_len_dialog` is the `max_total_length`
budget (default 1500 in the source). -/
def assemble (max_len_dialog : Int) (dialog_old situation message from_name to_name genre : List Char) : AsmResult :=
  let situation := pySuffix situation 700
  let len_dialog : Int := max_len_dialog - situation.length
  let dialog_old := pySuffix dialog_old len_dialog
  let dialog_new_candidate :=
    if from_name = [] ∧ message = [] then
      dialog_old ++ (" ").toList ++ to_name ++ (" said: \"").toList
    else if from_name = [] then
      dialog_old ++ (" You said: \"").toList ++ message ++ ("\" ").toList ++ to_name ++ (" said: \"").toList
    else
      dialog_old ++ (" ").toList ++ from_name ++ (" said: \"").toList ++ message ++ ("\" ").toList ++ to_name ++ (" said: \"").toList
  let dialog_new := pySuffix dialog_new_candidate len_dialog
  let dialog_to_send0 :=
    if from_name = [] ∧ message = [] then
      dialog_old ++ (" ").toList ++ situation ++ (" ").toList ++ to_name ++ (" said: \"").toList
    else if from_name = [] then
      dialog_old ++ (" ").toList ++ situation ++ (" You said: \"").toList ++ message ++ ("\" ").toList ++ to_name ++ (" said: \"").toList
    else
      dialog_old ++ (" ").toList ++ situation ++ (" ").toList ++ from_name ++ (" said: \"").toList ++ message ++ ("\" ").toList ++ to_name ++ (" said: \"").toList
  let dialog_to_send_candidate := ("[ Genre: ").toList ++ genre ++ (" ] ").toList ++ dialog_to_send0
  let dialog_to_send := pySuffix dialog_to_send_candidate len_dialog
  ⟨situation, len_dialog, dialog_old, dialog_new_candidate, dialog_new,
    dialog_to_send_candidate, dialog_to_send⟩

/-- The fixed unavailability message substituted for HTML error pages. -/
def unavailableMsg : List Char :=
  ("The AI model is currently unavailable. Please try again later.").toList

/-- `blueprints/chat.py`, `process_chat_message` lines 50–52: the caller of
`process_message` replaces a literal `"error"` return with a fixed
retry notice. -/
def chatErrorSubstitute (response : List Char) : List Char :=
  if response = ("error").toList then
    ("Temporary error, please try again in 30 seconds.").toList
  else response

/-- Outbound-translation target selection of `process_message`
(lines 227–253), as a pure function of the resolved `translate_to`,
the resolved `translate_from`, and the defaulted detected source
language: `some t` means a translation call with target `t` is made,
`none` means no outbound translation call. -/
def outboundTarget (translate_to translate_from detected : String) : Option String :=
  if translate_to ≠ "auto" then some translate_to
  else if translate_from = "auto" ∧ detected = "en" then none
  else if translate_from = "auto" then some detected
  else if translate_from = "en" then none
  else some translate_from

/-- The names bound at module level in `waifuapi_process.py` (its imports
and its own definitions).  `waifuapi_db` is not among them: the module
only imports the four functions from `waifuapi_db_pool`. -/
def processModuleBoundNames : List String :=
  ["requests", "re", "flask", "os", "logging", "waifuapi_translate",
   "get_logger", "handle_exception", "get_app_config", "sanitize_text",
   "alnum_crop", "get_old_dialog", "update_user_dialog", "is_user_id_in_db",
   "add_user_to_db", "logger", "remove_secret", "case_sensitive_replace",
   "clean_paragraph", "process_message", "process_form_dict",
   "log_request_info"]

/-- Python name resolution inside `process_message`: referencing an
unbound global raises `NameError`. -/
def lookupGlobal (n : String) : Except PyExc Unit :=
  if n ∈ processModuleBoundNames then Except.ok () else Except.error PyExc.nameError

deriving instance DecidableEq for Except

/-- Observable outcome of a `process_message` run prefix: its return value
(or uncaught exception), the transcript-store writes it performed, and
the number of Completion Gateway dispatches it made. -/
structure TurnOutcome where
  result : Except PyExc (List Char)
  storeWrites : List (List Char)
  gatewayCalls : Nat
  deriving DecidableEq, Repr

/-- `process_message` (lines 85–145) up to and including the database
try/except around `is_user_id_in_db`/`add_user_to_db`.  External
collaborators are parameters: `translateIn` is the inbound translation
step (used only when the resolved `translate_from` is not `"en"`), and
`rest` is the remainder of the function body from line 145 onward
(given the cleaned message and situation).  Input crops use the
configured defaults `max_message_length=1250`, `max_user_id_length=256`,
`max_name_length=50`. -/
def process_message (translateIn : List Char → Except PyExc (List Char))
    (rest : List Char → List Char → TurnOutcome)
    (message user_id from_name to_name situation : List Char)
    (translate_from translate_to : String) : TurnOutcome :=
  let message := pySuffix message 1250
  let _user_id := pySuffix user_id 256
  let _from_name := pySuffix from_name 50
  let _to_name := pySuffix to_name 50
  let translate_from := language_defaulter translate_from
  let _translate_to := language_defaulter translate_to
  match (if translate_from = "en" then Except.ok message else translateIn message) with
  | Except.error _ =>
      ⟨Except.ok ("Translation error. Please try again later.").toList, [], 0⟩
  | Except.ok message =>
    match clean_paragraph message with
    | Except.error e => ⟨Except.error e, [], 0⟩
    | Except.ok message =>
      match clean_paragraph situation with
      | Except.error e => ⟨Except.error e, [], 0⟩
      | Except.ok situation =>
        match lookupGlobal "waifuapi_db" with
        | Except.error _ =>
            ⟨Except.ok ("Database error. Please try again later.").toList, [], 0⟩
        | Except.ok _ => rest message situation

/-- A trivial inbound-translation collaborator (identity, never failing),
used to instantiate `process_message` at concrete inputs. -/
def trivialTranslateIn : List Char → Except PyExc (List Char) :=
  fun m => Except.ok m

/-- A trivial continuation for the unmodelled remainder of
`process_message`, used to instantiate it at concrete inputs. -/
def trivialRest : List Char → List Char → TurnOutcome :=
  fun _ _ => ⟨Except.ok [], [], 0⟩

/-- The HTML-signature check of `process_message` lines 204–207: a
completion starting with an HTML document marker is replaced by the
fixed unavailability message. -/
def substituteHtml (response : List Char) : List Char :=
  if ("!DOCTYPE HTML").toList.isPrefixOf response
      || ("<!DOCTYPE HTML").toList.isPrefixOf response then unavailableMsg
  else response

/-- The value `process_message` lines 212–213 compute as the argument for
the store write: `(dialog_new + response + '"')[-3300:]`, with
`response` taken after the HTML substitution. -/
def dialogToStore (dialog_new response : List Char) : List Char :=
  pySuffix (dialog_new ++ substituteHtml response ++ ("\"").toList) 3300

/-- The post-gateway phase of `process_message` (lines 204–219): the HTML
substitution, the computation of `dialog_to_store`, then the try/except
around `waifuapi_db.update_user_dialog`.  As in the earlier database
block, the name `waifuapi_db` is unbound in the module, so the write
raises `NameError` before anything reaches the store; the except
clause catches it and the function returns
"Database error. Could not save conversation." having written nothing.
`rest` is the remainder of the function from line 216 onward (given
the current response and the value that would have been stored),
reachable only if the name were bound. -/
def postGateway (rest : List Char → List Char → TurnOutcome)
    (dialog_new response : List Char) : TurnOutcome :=
  let response := substituteHtml response
  let dialog_to_store := dialog_new ++ response ++ ("\"").toList
  let dialog_to_store := pySuffix dialog_to_store 3300
  match lookupGlobal "waifuapi_db" with
  | Except.error _ =>
      ⟨Except.ok ("Database error. Could not save conversation.").toList, [], 0⟩
  | Except.ok _ => rest response dialog_to_store

/-- Negated character class `[^"]` of the dialog-parsing regex. -/
def notQuote (c : Char) : Bool := decide (c ≠ '"')

/-- The literal `said:` of the dialog-parsing regex. -/
def saidToken : List Char := ("said:").toList

/-- One attempted match of the tail `\s+said:\s+"([^"]+)"` of the regex
`([^"]+)\s+said:\s+"([^"]+)"` at the start of `t`, returning the
captured message and the remainder after the match.  This tail is
deterministic for a backtracking engine: `said:` starts with the
non-whitespace `'s'`, so `\s+` can only end at the end of the maximal
whitespace run; `'"'` is likewise non-whitespace; and `[^"]+` can only
end at the first `'"'`. -/
def matchTail (t : List Char) : Option (List Char × List Char) :=
  let w := t.takeWhile isPyWs
  let t1 := t.dropWhile isPyWs
  if w = [] then none
  else if saidToken.isPrefixOf t1 then
    let t2 := t1.drop 5
    let w2 := t2.takeWhile isPyWs
    let t3 := t2.dropWhile isPyWs
    if w2 = [] then none
    else
      match t3 with
      | '"' :: t4 =>
        let msg := t4.takeWhile notQuote
        let t5 := t4.dropWhile notQuote
        if msg = [] then none
        else
          match t5 with
          | '"' :: rest => some (msg, rest)
          | _ => none
      | _ => none
  else none

/-- Greedy choice of the group `([^"]+)`: a backtracking engine tries the
longest candidate first, shortening one character at a time.  The
argument is the candidate length of the first group; the caller starts
it at the length of the maximal non-quote run. -/
def tryGroup1 (s : List Char) : Nat → Option (List Char × List Char × List Char)
  | 0 => none
  | i + 1 =>
    match matchTail (s.drop (i + 1)) with
    | some (m, r) => some (s.take (i + 1), m, r)
    | none => tryGroup1 s i

/-- One match attempt of `([^"]+)\s+said:\s+"([^"]+)"` anchored at the
start of `s`, with Python's greedy semantics. -/
def matchAt (s : List Char) : Option (List Char × List Char × List Char) :=
  tryGroup1 s (s.takeWhile notQuote).length

/-- `re.findall` scan: attempt a match at each position left to right;
on success emit the two captured groups and continue after the match,
on failure advance one character.  `fuel` bounds the recursion and is
initialized to the string length. -/
def findAllAux : Nat → List Char → List (List Char × List Char)
  | 0, _ => []
  | fuel + 1, s =>
    match matchAt s with
    | some (g1, m, r) => (g1, m) :: findAllAux fuel r
    | none =>
      match s with
      | [] => []
      | _ :: tail => findAllAux fuel tail

/-- `re.findall(r'([^"]+)\s+said:\s+"([^"]+)"', dialog)`. -/
def findAll (s : List Char) : List (List Char × List Char) :=
  findAllAux s.length s

/-- One entry of the structured dialog form
`{"index": i, "name": n, "message": m}`. -/
structure DialogEntry where
  index : Nat
  name : List Char
  message : List Char
  deriving DecidableEq, Repr

/-- `blueprints/dialog.py`, `dialog_to_json`: run the regex scan over the
transcript and build `{index, name.strip(), message}` entries. -/
def dialog_to_json (dialog : List Char) : List DialogEntry :=
  (findAll dialog).enum.map (fun p => DialogEntry.mk p.1 (pyStrip p.2.1) p.2.2)

/-- One serialized turn `f'{name} said: "{message}"'` of `json_to_dialog`. -/
def seg (p : List Char × List Char) : List Char :=
  p.1 ++ (" said: \"").toList ++ p.2 ++ ("\"").toList

/-- Python `" ".join`. -/
def joinSp : List (List Char) → List Char
  | [] => []
  | [x] => x
  | x :: y :: xs => x ++ (" ").toList ++ joinSp (y :: xs)

/-- `blueprints/dialog.py`, `json_to_dialog`: serialize the turn list
(name and message of each entry) and join with single spaces. -/
def json_to_dialog (l : List (List Char × List Char)) : List Char :=
  joinSp (l.map seg)

/-- The (name, message) content of a structured dialog entry. -/
def entryPair (e : DialogEntry) : List Char × List Char := (e.name, e.message)

/-- Conditions on a (name, message) turn under which the transcript
round-trip is faithful: the claim's conditions (no literal `"`, no
`said:` substring) plus the amendments forced by the regex (name and
message non-empty, name carrying no leading or trailing whitespace). -/
def GoodPair (p : List Char × List Char) : Prop :=
  p.1 ≠ [] ∧ p.2 ≠ [] ∧
  (∀ c ∈ p.1, c ≠ '"') ∧ (∀ c ∈ p.2, c ≠ '"') ∧
  ¬ saidToken <:+: p.1 ∧ ¬ saidToken <:+: p.2 ∧
  p.1.takeWhile isPyWs = [] ∧ p.1.reverse.takeWhile isPyWs = []

instance (p : List Char × List Char) : Decidable (GoodPair p) := by
  unfold GoodPair
  exact inferInstance

section Theorems

theorem pySuffix_is_suffix (s : List Char) (n : Int) : pySuffix s n <:+ s := by
  unfold pySuffix
  split <;> exact List.drop_suffix _ _

theorem pySuffix_length_le (s : List Char) (n : Int) (h : 0 < n) :
    (pySuffix s n).length ≤ n.toNat := by
  unfold pySuffix
  rw [if_pos h, List.length_drop]
  omega

theorem pySuffix_length_min (s : List Char) (n : Int) (h : 0 < n) :
    (pySuffix s n).length = min n.toNat s.length := by
  unfold pySuffix
  rw [if_pos h, List.length_drop]
  omega

theorem pySuffix_zero (s : List Char) : pySuffix s 0 = s := by
  unfold pySuffix
  norm_num

theorem pySuffix_nonpos (s : List Char) (n : Int) (h : n ≤ 0) :
    pySuffix s n = s.drop (-n).toNat := by
  unfold pySuffix
  rw [if_neg (by omega)]

theorem length_dropWhile_le (p : Char → Bool) (l : List Char) :
    (l.dropWhile p).length ≤ l.length := by
  induction l with
  | nil => simp
  | cons a l ih =>
    rw [List.dropWhile_cons]
    split
    · simpa using Nat.le_succ_of_le ih
    · simp

theorem pyStrip_length_le (s : List Char) : (pyStrip s).length ≤ s.length := by
  unfold pyStrip
  calc ((s.dropWhile isPyWs).reverse.dropWhile isPyWs).reverse.length
      = ((s.dropWhile isPyWs).reverse.dropWhile isPyWs).length := List.length_reverse _
    _ ≤ (s.dropWhile isPyWs).reverse.length := length_dropWhile_le _ _
    _ = (s.dropWhile isPyWs).length := List.length_reverse _
    _ ≤ s.length := length_dropWhile_le _ _

theorem sanitize_text_ok_of_short (text : List Char) (n : Nat) (b : Bool)
    (h : text.length ≤ n) : ∃ s, sanitize_text text n b = Except.ok s := by
  unfold sanitize_text
  set f : Char → Bool := fun c =>
    (if b then stringPrintable c || (c = '\n' || c = '\r' || c = '\t')
     else stringPrintable c) && decide (32 ≤ c.toNat) with hf
  have h1 : (pyStrip (text.filter f)).length ≤ text.length :=
    le_trans (pyStrip_length_le _) (List.length_filter_le _ _)
  refine ⟨pyStrip (text.filter f), ?_⟩
  simp only [← hf]
  rw [if_neg (by omega)]

theorem assemble_len_dialog (m : Int) (d s msg f t g : List Char) :
    (assemble m d s msg f t g).len_dialog = m - (pySuffix s 700).length := rfl

theorem assemble_dialog_new_eq (m : Int) (d s msg f t g : List Char) :
    (assemble m d s msg f t g).dialog_new =
      pySuffix (assemble m d s msg f t g).dialog_new_candidate
        (assemble m d s msg f t g).len_dialog := rfl

theorem assemble_dialog_to_send_eq (m : Int) (d s msg f t g : List Char) :
    (assemble m d s msg f t g).dialog_to_send =
      pySuffix (assemble m d s msg f t g).dialog_to_send_candidate
        (assemble m d s msg f t g).len_dialog := rfl

/-- Claim C1, counterexample: at budget `max_total_length = 0` with empty
situation, Python's `s[-0:]` keeps the whole candidate, so the
transcript-update string (length 10 here) exceeds the budget. -/
theorem c1_counterexample :
    ¬ (((assemble 0 (("x").toList) [] [] [] [] []).dialog_new.length : Int) ≤ 0) := by
  decide

/-- Claim C1 (amended): whenever the cropped situation is strictly shorter
than the budget (so `len_dialog ≥ 1`), the assembled transcript-update
and model-input strings have length at most `max_total_length`; and
unconditionally on that hypothesis, each is exactly a trailing
substring (suffix) of its untruncated candidate. -/
theorem c1_assembler_budget_and_suffix (max_len : Int)
    (dialog_old situation message from_name to_name genre : List Char)
    (h : 1 ≤ max_len - ((pySuffix situation 700).length : Int)) :
    ((assemble max_len dialog_old situation message from_name to_name genre).dialog_new.length : Int) ≤ max_len ∧
    ((assemble max_len dialog_old situation message from_name to_name genre).dialog_to_send.length : Int) ≤ max_len ∧
    (assemble max_len dialog_old situation message from_name to_name genre).dialog_new <:+
      (assemble max_len dialog_old situation message from_name to_name genre).dialog_new_candidate ∧
    (assemble max_len dialog_old situation message from_name to_name genre).dialog_to_send <:+
      (assemble max_len dialog_old situation message from_name to_name genre).dialog_to_send_candidate := by
  have h0 : (0 : Int) < max_len - ((pySuffix situation 700).length : Int) := by omega
  refine ⟨?_, ?_, ?_, ?_⟩
  · rw [assemble_dialog_new_eq, assemble_len_dialog]
    have hle := pySuffix_length_le
      (assemble max_len dialog_old situation message from_name to_name genre).dialog_new_candidate
      (max_len - ((pySuffix situation 700).length : Int)) h0
    omega
  · rw [assemble_dialog_to_send_eq, assemble_len_dialog]
    have hle := pySuffix_length_le
      (assemble max_len dialog_old situation message from_name to_name genre).dialog_to_send_candidate
      (max_len - ((pySuffix situation 700).length : Int)) h0
    omega
  · rw [assemble_dialog_new_eq]
    exact pySuffix_is_suffix _ _
  · rw [assemble_dialog_to_send_eq]
    exact pySuffix_is_suffix _ _

/-- Claim C1 witness: the amended theorem applied at a concrete input. -/
theorem c1_witness :
    1 ≤ (1500 : Int) - ((pySuffix (("sit").toList) 700).length : Int) ∧
    (((assemble 1500 (("Old").toList) (("sit").toList) (("Hi").toList) (("Alice").toList) (("Waifu").toList) (("Romance").toList)).dialog_new.length : Int) ≤ 1500 ∧
     ((assemble 1500 (("Old").toList) (("sit").toList) (("Hi").toList) (("Alice").toList) (("Waifu").toList) (("Romance").toList)).dialog_to_send.length : Int) ≤ 1500 ∧
     (assemble 1500 (("Old").toList) (("sit").toList) (("Hi").toList) (("Alice").toList) (("Waifu").toList) (("Romance").toList)).dialog_new <:+
       (assemble 1500 (("Old").toList) (("sit").toList) (("Hi").toList) (("Alice").toList) (("Waifu").toList) (("Romance").toList)).dialog_new_candidate ∧
     (assemble 1500 (("Old").toList) (("sit").toList) (("Hi").toList) (("Alice").toList) (("Waifu").toList) (("Romance").toList)).dialog_to_send <:+
       (assemble 1500 (("Old").toList) (("sit").toList) (("Hi").toList) (("Alice").toList) (("Waifu").toList) (("Romance").toList)).dialog_to_send_candidate) :=
  ⟨by decide,
   c1_assembler_budget_and_suffix 1500 (("Old").toList) (("sit").toList) (("Hi").toList)
     (("Alice").toList) (("Waifu").toList) (("Romance").toList) (by decide)⟩

/-- Claim C2, counterexample: with budget 5 and a 5-character situation the
remaining budget is exactly 0, yet the transcript-update string keeps
the entire 100-character old transcript (Python `s[-0:]` is the whole
string) — not an empty or near-empty string. -/
theorem c2_counterexample :
    (assemble 5 (List.replicate 100 'a') (("abcde").toList) [] [] [] []).len_dialog = 0 ∧
    100 ≤ (assemble 5 (List.replicate 100 'a') (("abcde").toList) [] [] [] []).dialog_new.length := by
  decide

/-- Claim C2 (amended): when `remaining = max_total_length - len(situation)`
is non-positive the assembler still does not raise (all operations are
total), but the outputs are not empty or near-empty: for
`remaining = 0` each candidate string is kept whole, and for
`remaining < 0` only the first `-remaining` characters are dropped. -/
theorem c2_assembler_nonpositive_remaining (max_len : Int)
    (dialog_old situation message from_name to_name genre : List Char)
    (h : max_len - ((pySuffix situation 700).length : Int) ≤ 0) :
    (assemble max_len dialog_old situation message from_name to_name genre).dialog_new =
      (assemble max_len dialog_old situation message from_name to_name genre).dialog_new_candidate.drop
        (-(max_len - ((pySuffix situation 700).length : Int))).toNat ∧
    (assemble max_len dialog_old situation message from_name to_name genre).dialog_to_send =
      (assemble max_len dialog_old situation message from_name to_name genre).dialog_to_send_candidate.drop
        (-(max_len - ((pySuffix situation 700).length : Int))).toNat ∧
    (max_len - ((pySuffix situation 700).length : Int) = 0 →
      (assemble max_len dialog_old situation message from_name to_name genre).dialog_new =
        (assemble max_len dialog_old situation message from_name to_name genre).dialog_new_candidate ∧
      (assemble max_len dialog_old situation message from_name to_name genre).dialog_to_send =
        (assemble max_len dialog_old situation message from_name to_name genre).dialog_to_send_candidate) := by
  refine ⟨?_, ?_, fun h0 => ⟨?_, ?_⟩⟩
  · rw [assemble_dialog_new_eq, assemble_len_dialog, pySuffix_nonpos _ _ (by omega)]
  · rw [assemble_dialog_to_send_eq, assemble_len_dialog, pySuffix_nonpos _ _ (by omega)]
  · rw [assemble_dialog_new_eq, assemble_len_dialog, h0, pySuffix_zero]
  · rw [assemble_dialog_to_send_eq, assemble_len_dialog, h0, pySuffix_zero]

/-- Claim C2 witness: the amended theorem applied at a concrete input with
negative remaining budget. -/
theorem c2_witness :
    (2 : Int) - ((pySuffix (("abcde").toList) 700).length : Int) ≤ 0 ∧
    ((assemble 2 (("history").toList) (("abcde").toList) [] [] [] []).dialog_new =
      (assemble 2 (("history").toList) (("abcde").toList) [] [] [] []).dialog_new_candidate.drop
        (-((2 : Int) - ((pySuffix (("abcde").toList) 700).length : Int))).toNat ∧
     (assemble 2 (("history").toList) (("abcde").toList) [] [] [] []).dialog_to_send =
      (assemble 2 (("history").toList) (("abcde").toList) [] [] [] []).dialog_to_send_candidate.drop
        (-((2 : Int) - ((pySuffix (("abcde").toList) 700).length : Int))).toNat ∧
     ((2 : Int) - ((pySuffix (("abcde").toList) 700).length : Int) = 0 →
      (assemble 2 (("history").toList) (("abcde").toList) [] [] [] []).dialog_new =
        (assemble 2 (("history").toList) (("abcde").toList) [] [] [] []).dialog_new_candidate ∧
      (assemble 2 (("history").toList) (("abcde").toList) [] [] [] []).dialog_to_send =
        (assemble 2 (("history").toList) (("abcde").toList) [] [] [] []).dialog_to_send_candidate)) :=
  ⟨by decide,
   c2_assembler_nonpositive_remaining 2 (("history").toList) (("abcde").toList) [] [] [] []
     (by decide)⟩

set_option maxRecDepth 200000 in
/-- Claim C3, counterexample: with resolved `translate_from = "en"` but a
situation whose sanitized form has 1251 characters, `clean_paragraph`
raises `ValidationError` before the database step is reached, so
`process_message` propagates an exception instead of returning the
fixed database-error string. -/
theorem c3_counterexample :
    language_defaulter "en" = "en" ∧
    (process_message trivialTranslateIn trivialRest [] [] [] [] (List.replicate 1251 'a')
        "en" "auto").result = Except.error PyExc.validationError := by
  constructor
  · decide
  · decide

/-- Claim C3 (amended): for every input whose resolved `translate_from` is
`"en"` and whose situation sanitizes without error, `process_message`
returns exactly "Database error. Please try again later." — the name
`waifuapi_db` is unbound in the module, so the first store access
raises `NameError`, caught by the database try/except — performing no
store write and no Completion Gateway dispatch, for every possible
continuation of the function body. -/
theorem c3_unbound_db_name_yields_database_error
    (translateIn : List Char → Except PyExc (List Char))
    (rest : List Char → List Char → TurnOutcome)
    (message user_id from_name to_name situation : List Char)
    (translate_from translate_to : String)
    (h1 : language_defaulter translate_from = "en")
    (h2 : ∃ s, clean_paragraph situation = Except.ok s) :
    process_message translateIn rest message user_id from_name to_name situation
        translate_from translate_to =
      ⟨Except.ok ("Database error. Please try again later.").toList, [], 0⟩ := by
  obtain ⟨s, hs⟩ := h2
  obtain ⟨m, hm⟩ := sanitize_text_ok_of_short (pySuffix message 1250) 1250 true
    (by simpa using pySuffix_length_le message 1250 (by norm_num))
  have hdb : lookupGlobal "waifuapi_db" = Except.error PyExc.nameError := by decide
  unfold process_message clean_paragraph
  unfold clean_paragraph at hs
  simp only [h1, hm, hs, hdb, if_pos]

/-- Claim C3 witness: the amended theorem applied at a concrete input. -/
theorem c3_witness :
    language_defaulter "en" = "en" ∧
    process_message trivialTranslateIn trivialRest (("Hi").toList) (("u1").toList) []
        (("Waifu").toList) (("park").toList) "en" "auto" =
      ⟨Except.ok ("Database error. Please try again later.").toList, [], 0⟩ :=
  ⟨by decide,
   c3_unbound_db_name_yields_database_error trivialTranslateIn trivialRest
     (("Hi").toList) (("u1").toList) [] (("Waifu").toList) (("park").toList) "en" "auto"
     (by decide) ⟨("park").toList, by decide⟩⟩

set_option maxRecDepth 200000 in
/-- Claim C4 (code bug): on input whose filtered and stripped form is 1251
characters with `max_length = 1250`, `sanitize_text` raises
`ValidationError` instead of returning the trailing 1250 characters as
both the spec and `clean_paragraph`'s own docstring describe. -/
theorem c4_sanitize_raises_on_overlength :
    sanitize_text (List.replicate 1251 'a') 1250 true = Except.error PyExc.validationError := by
  decide

/-- Claim C5: the outbound-translation target chain — explicit non-auto
target wins; otherwise inbound `auto` with detected pivot `en` skips;
otherwise inbound `auto` targets the detected language; otherwise an
explicit non-pivot inbound source is translated back to. -/
theorem c5_outbound_target_chain (translate_to translate_from detected : String) :
    (translate_to ≠ "auto" →
      outboundTarget translate_to translate_from detected = some translate_to) ∧
    (translate_to = "auto" → translate_from = "auto" → detected = "en" →
      outboundTarget translate_to translate_from detected = none) ∧
    (translate_to = "auto" → translate_from = "auto" → detected ≠ "en" →
      outboundTarget translate_to translate_from detected = some detected) ∧
    (translate_to = "auto" → translate_from ≠ "auto" → translate_from ≠ "en" →
      outboundTarget translate_to translate_from detected = some translate_from) := by
  unfold outboundTarget
  refine ⟨?_, ?_, ?_, ?_⟩ <;> intros <;> simp_all

/-- Claim C5 witness: each branch of the chain at a concrete input. -/
theorem c5_witness :
    outboundTarget "fr" "auto" "en" = some "fr" ∧
    outboundTarget "auto" "auto" "en" = none ∧
    outboundTarget "auto" "auto" "fr" = some "fr" ∧
    outboundTarget "auto" "de" "en" = some "de" :=
  ⟨(c5_outbound_target_chain "fr" "auto" "en").1 (by decide),
   (c5_outbound_target_chain "auto" "auto" "en").2.1 rfl rfl rfl,
   (c5_outbound_target_chain "auto" "auto" "fr").2.2.1 rfl rfl (by decide),
   (c5_outbound_target_chain "auto" "de" "en").2.2.2 rfl (by decide) (by decide)⟩

/-- Claim C6, counterexample: when the gateway response is the literal
token "error", `process_message` does not return a retry notice: the
store write at line 215 dereferences the unbound name `waifuapi_db`,
raises `NameError`, and the except clause returns
"Database error. Could not save conversation." instead. -/
theorem c6_counterexample :
    (postGateway trivialRest [] (("error").toList)).result =
      Except.ok ("Database error. Could not save conversation.").toList ∧
    (postGateway trivialRest [] (("error").toList)).result ≠
      Except.ok ("Temporary error, please try again in 30 seconds.").toList := by
  exact ⟨by decide, by decide⟩

/-- Claim C6 (amended): `process_message` has no "error" sentinel — the
literal "error" completion passes the HTML check unchanged and reaches
the store write like any other completion; that write raises
`NameError` on the unbound `waifuapi_db`, so nothing is persisted (the
stored transcript is indeed unchanged, though not via any sentinel)
and `process_message` returns
"Database error. Could not save conversation.", not a retry notice;
the retry notice exists only in the chat blueprint's
`process_chat_message`, which substitutes it when `process_message`
returns the literal "error" — which this path does not. -/
theorem c6_error_token_db_error (rest : List Char → List Char → TurnOutcome)
    (dialog_new : List Char) :
    postGateway rest dialog_new (("error").toList) =
      ⟨Except.ok ("Database error. Could not save conversation.").toList, [], 0⟩ ∧
    substituteHtml (("error").toList) = ("error").toList ∧
    chatErrorSubstitute (("error").toList) =
      ("Temporary error, please try again in 30 seconds.").toList := by
  refine ⟨?_, by decide, by decide⟩
  have hdb : lookupGlobal "waifuapi_db" = Except.error PyExc.nameError := by decide
  simp [postGateway, hdb]

/-- Claim C7, counterexample: for a completion starting with
"<!DOCTYPE HTML", `process_message` does not return the fixed
unavailability message: after the substitution, the store write raises
`NameError` on the unbound `waifuapi_db` and the function returns
"Database error. Could not save conversation.". -/
theorem c7_counterexample :
    (postGateway trivialRest (("D").toList)
        (("<!DOCTYPE HTML><html>err</html>").toList)).result =
      Except.ok ("Database error. Could not save conversation.").toList ∧
    (postGateway trivialRest (("D").toList)
        (("<!DOCTYPE HTML><html>err</html>").toList)).result ≠
      Except.ok unavailableMsg := by
  exact ⟨by decide, by decide⟩

/-- Claim C7 (amended): a completion starting with "<!DOCTYPE HTML" has
the fixed unavailability message substituted into the response before
the persistence attempt, and the HTML content is never persisted —
indeed nothing is: the value computed for the store depends only on
the fixed message, the write raises `NameError` on the unbound
`waifuapi_db` so no store write occurs, and `process_message` returns
"Database error. Could not save conversation." rather than the HTML
(or the unavailability message). -/
theorem c7_html_substituted_not_persisted (rest : List Char → List Char → TurnOutcome)
    (dialog_new response : List Char)
    (h : ("<!DOCTYPE HTML").toList.isPrefixOf response = true) :
    substituteHtml response = unavailableMsg ∧
    dialogToStore dialog_new response =
      pySuffix (dialog_new ++ unavailableMsg ++ ("\"").toList) 3300 ∧
    postGateway rest dialog_new response =
      ⟨Except.ok ("Database error. Could not save conversation.").toList, [], 0⟩ := by
  have hs : substituteHtml response = unavailableMsg := by
    simp only [substituteHtml, h, Bool.or_true, if_true]
  refine ⟨hs, ?_, ?_⟩
  · simp only [dialogToStore, hs]
  · have hdb : lookupGlobal "waifuapi_db" = Except.error PyExc.nameError := by decide
    simp [postGateway, hdb]

/-- Claim C7 witness: the amended theorem applied to a concrete HTML error
page. -/
theorem c7_witness :
    ("<!DOCTYPE HTML").toList.isPrefixOf (("<!DOCTYPE HTML><html>e</html>").toList) = true ∧
    (substituteHtml (("<!DOCTYPE HTML><html>e</html>").toList) = unavailableMsg ∧
     dialogToStore (("D").toList) (("<!DOCTYPE HTML><html>e</html>").toList) =
       pySuffix ((("D").toList) ++ unavailableMsg ++ ("\"").toList) 3300 ∧
     postGateway trivialRest (("D").toList) (("<!DOCTYPE HTML><html>e</html>").toList) =
       ⟨Except.ok ("Database error. Could not save conversation.").toList, [], 0⟩) :=
  ⟨by decide,
   c7_html_substituted_not_persisted trivialRest (("D").toList)
     (("<!DOCTYPE HTML><html>e</html>").toList) (by decide)⟩

/-- Claim C8 (code bug): lines 212–213 compute exactly the claimed
trailing-3300-character truncation of
`transcript_update + completion + '"'` as the argument for the store
write — here, at a 3403-character candidate, its last 3300 characters
— but the write at line 215 dereferences the unbound name
`waifuapi_db` (the module imports `update_user_dialog` directly from
`waifuapi_db_pool` and never uses it), so no store write occurs and
`process_message` returns
"Database error. Could not save conversation.". -/
theorem c8_store_write_raises :
    postGateway trivialRest (List.replicate 3400 'a') (("hi").toList) =
      ⟨Except.ok ("Database error. Could not save conversation.").toList, [], 0⟩ ∧
    dialogToStore (List.replicate 3400 'a') (("hi").toList) =
      (List.replicate 3400 'a' ++ ("hi").toList ++ ("\"").toList).drop 103 := by
  constructor
  · have hdb : lookupGlobal "waifuapi_db" = Except.error PyExc.nameError := by decide
    simp [postGateway, hdb]
  · have hsub : substituteHtml (("hi").toList) = ("hi").toList := by decide
    rw [dialogToStore, hsub]
    rw [show (("hi").toList : List Char) = ['h', 'i'] from rfl,
      show (("\"").toList : List Char) = ['"'] from rfl]
    unfold pySuffix
    rw [if_pos (by norm_num)]
    have hlen : (List.replicate 3400 'a' ++ ['h', 'i'] ++ ['"']).length - (3300 : Int).toNat = 103 := by
      simp only [List.length_append, List.length_replicate, List.length_cons,
        List.length_nil]
      decide
    rw [hlen]

/-- Claim C9: `language_defaulter` is idempotent and its output is always
either a member of the supported-language set or "auto". -/
theorem c9_language_defaulter_idempotent (x : String) :
    language_defaulter (language_defaulter x) = language_defaulter x ∧
    (language_defaulter x ∈ supportedLanguages ∨ language_defaulter x = "auto") := by
  by_cases h : x ∈ supportedLanguages
  · refine ⟨?_, Or.inl ?_⟩
    · simp [language_defaulter, h]
    · simp [language_defaulter, h]
  · have h2 : language_defaulter x = "auto" := by simp [language_defaulter, h]
    rw [h2]
    exact ⟨by decide, Or.inr rfl⟩

theorem takeWhile_append_of_all (p : Char → Bool) (l1 l2 : List Char)
    (h : ∀ c ∈ l1, p c = true) :
    (l1 ++ l2).takeWhile p = l1 ++ l2.takeWhile p := by
  induction l1 with
  | nil => simp
  | cons a l ih =>
    have ha : p a = true := h a (by simp)
    simp [List.takeWhile_cons, ha, ih (fun c hc => h c (List.mem_cons_of_mem a hc))]

theorem dropWhile_append_of_all (p : Char → Bool) (l1 l2 : List Char)
    (h : ∀ c ∈ l1, p c = true) :
    (l1 ++ l2).dropWhile p = l2.dropWhile p := by
  induction l1 with
  | nil => simp
  | cons a l ih =>
    have ha : p a = true := h a (by simp)
    simp [List.dropWhile_cons, ha, ih (fun c hc => h c (List.mem_cons_of_mem a hc))]

theorem dropWhile_eq_self_of_takeWhile_nil (p : Char → Bool) (l : List Char)
    (h : l.takeWhile p = []) : l.dropWhile p = l := by
  cases l with
  | nil => rfl
  | cons a l =>
    by_cases ha : p a = true
    · rw [List.takeWhile_cons, if_pos ha] at h
      exact absurd h (by simp)
    · rw [List.dropWhile_cons, if_neg ha]

theorem notQuote_of_ws (c : Char) (h : isPyWs c = true) : notQuote c = true := by
  simp only [isPyWs, Bool.or_eq_true, decide_eq_true_eq] at h
  rcases h with ((((h | h) | h) | h) | h) | h <;> subst h <;> decide

theorem pyStrip_ws_wrap (sp n : List Char) (hws : ∀ c ∈ sp, isPyWs c = true)
    (h1 : n.takeWhile isPyWs = []) (h2 : n.reverse.takeWhile isPyWs = []) :
    pyStrip (sp ++ n) = n := by
  unfold pyStrip
  rw [dropWhile_append_of_all isPyWs sp n hws,
    dropWhile_eq_self_of_takeWhile_nil _ _ h1,
    dropWhile_eq_self_of_takeWhile_nil _ _ h2, List.reverse_reverse]

theorem matchTail_ws (t : List Char) (h : ∀ c ∈ t, isPyWs c = true) :
    matchTail t = none := by
  cases t with
  | nil => rfl
  | cons a t' =>
    have ha : isPyWs a = true := h a (by simp)
    have h3 : (a :: t').dropWhile isPyWs = [] :=
      List.dropWhile_eq_nil_iff.mpr (fun x hx => h x hx)
    have h4 : saidToken.isPrefixOf ([] : List Char) = false := by decide
    simp [matchTail, List.takeWhile_cons, ha, h3, h4]

theorem tryGroup1_succ_none (s : List Char) (i : Nat)
    (h : matchTail (s.drop (i + 1)) = none) :
    tryGroup1 s (i + 1) = tryGroup1 s i := by
  simp [tryGroup1, h]

theorem tryGroup1_succ_some (s : List Char) (i : Nat) (m r : List Char)
    (h : matchTail (s.drop (i + 1)) = some (m, r)) :
    tryGroup1 s (i + 1) = some (s.take (i + 1), m, r) := by
  simp [tryGroup1, h]

theorem tryGroup1_none_of_all (s : List Char) (j : Nat)
    (h : ∀ i, matchTail (s.drop i) = none) : tryGroup1 s j = none := by
  induction j with
  | zero => rfl
  | succ i ih => rw [tryGroup1_succ_none s i (h (i + 1)), ih]

theorem tryGroup1_add_none (s : List Char) (base : Nat) (k : Nat)
    (h : ∀ j, 1 ≤ j → j ≤ k → matchTail (s.drop (base + j)) = none) :
    tryGroup1 s (base + k) = tryGroup1 s base := by
  induction k with
  | zero => rfl
  | succ k ih =>
    rw [show base + (k + 1) = (base + k) + 1 from rfl,
      tryGroup1_succ_none s (base + k) (h (k + 1) (by omega) (le_refl _))]
    exact ih (fun j h1 hk => h j h1 (by omega))

theorem matchAt_nil : matchAt [] = none := rfl

theorem matchAt_ws (sp : List Char) (h : ∀ c ∈ sp, isPyWs c = true) :
    matchAt sp = none := by
  unfold matchAt
  exact tryGroup1_none_of_all _ _
    (fun i => matchTail_ws _ (fun c hc => h c (List.drop_subset _ _ hc)))

theorem findAllAux_nil (fuel : Nat) : findAllAux fuel [] = [] := by
  cases fuel with
  | zero => rfl
  | succ f => simp [findAllAux, matchAt_nil]

theorem findAllAux_ws (fuel : Nat) (sp : List Char)
    (hws : ∀ c ∈ sp, isPyWs c = true) (hlen : sp.length ≤ fuel) :
    findAllAux fuel sp = [] := by
  induction fuel generalizing sp with
  | zero =>
    cases sp with
    | nil => rfl
    | cons a sp' => simp at hlen
  | succ f ih =>
    cases sp with
    | nil => exact findAllAux_nil _
    | cons a sp' =>
      have hm : matchAt (a :: sp') = none := matchAt_ws _ hws
      simp only [findAllAux, hm]
      exact ih sp' (fun c hc => hws c (List.mem_cons_of_mem a hc)) (by simpa using hlen)

theorem isPrefixOf_cons₂ (a b : Char) (as bs : List Char) :
    (a :: as).isPrefixOf (b :: bs) = (a == b && as.isPrefixOf bs) := rfl

theorem matchTail_sep (m tail : List Char) (hm : m ≠ [])
    (hmq : ∀ c ∈ m, notQuote c = true) :
    matchTail (' ' :: 's' :: 'a' :: 'i' :: 'd' :: ':' :: ' ' :: '"' :: (m ++ '"' :: tail)) =
      some (m, tail) := by
  have hq : notQuote '"' = false := by decide
  have hTW : (m ++ '"' :: tail).takeWhile notQuote = m := by
    rw [takeWhile_append_of_all notQuote m _ hmq, List.takeWhile_cons, if_neg (by simp [hq])]
    simp
  have hDW : (m ++ '"' :: tail).dropWhile notQuote = '"' :: tail := by
    rw [dropWhile_append_of_all notQuote m _ hmq, List.dropWhile_cons, if_neg (by simp [hq])]
  have hw1 : isPyWs ' ' = true := by decide
  have hw2 : isPyWs 's' = false := by decide
  have hw3 : isPyWs '"' = false := by decide
  have hpre : saidToken.isPrefixOf
      ('s' :: 'a' :: 'i' :: 'd' :: ':' :: ' ' :: '"' :: (m ++ '"' :: tail)) = true := by
    rw [show ('s' :: 'a' :: 'i' :: 'd' :: ':' :: ' ' :: '"' :: (m ++ '"' :: tail)) =
      saidToken ++ (' ' :: '"' :: (m ++ '"' :: tail)) from rfl]
    exact List.isPrefixOf_iff_prefix.mpr (List.prefix_append _ _)
  simp [matchTail, List.takeWhile_cons, List.dropWhile_cons, hw1, hw2, hw3, hpre, hTW, hDW, hm]

theorem matchAt_seg (sp n m tail : List Char)
    (hsp : ∀ c ∈ sp, isPyWs c = true)
    (hn : n ≠ []) (hnq : ∀ c ∈ n, notQuote c = true)
    (hm : m ≠ []) (hmq : ∀ c ∈ m, notQuote c = true) :
    matchAt (sp ++ n ++ (" said: \"").toList ++ m ++ '"' :: tail) =
      some (sp ++ n, m, tail) := by
  have hsplit : sp ++ n ++ (" said: \"").toList ++ m ++ '"' :: tail =
      (sp ++ n) ++ (' ' :: 's' :: 'a' :: 'i' :: 'd' :: ':' :: ' ' :: '"' :: (m ++ '"' :: tail)) := by
    rw [show (" said: \"").toList =
      ' ' :: 's' :: 'a' :: 'i' :: 'd' :: ':' :: ' ' :: '"' :: [] from rfl]
    simp [List.append_assoc]
  rw [hsplit]
  have hpreq : ∀ c ∈ sp ++ n, notQuote c = true := by
    intro c hc
    rcases List.mem_append.mp hc with h | h
    · exact notQuote_of_ws c (hsp c h)
    · exact hnq c h
  have hq : notQuote '"' = false := by decide
  have hTWR : (' ' :: 's' :: 'a' :: 'i' :: 'd' :: ':' :: ' ' :: '"' :: (m ++ '"' :: tail)).takeWhile notQuote
      = [' ', 's', 'a', 'i', 'd', ':', ' '] := by
    have h1 : notQuote ' ' = true := by decide
    have h2 : notQuote 's' = true := by decide
    have h3 : notQuote 'a' = true := by decide
    have h4 : notQuote 'i' = true := by decide
    have h5 : notQuote 'd' = true := by decide
    have h6 : notQuote ':' = true := by decide
    simp [List.takeWhile_cons, h1, h2, h3, h4, h5, h6, hq]
  have hP : (((sp ++ n) ++ (' ' :: 's' :: 'a' :: 'i' :: 'd' :: ':' :: ' ' :: '"' :: (m ++ '"' :: tail))).takeWhile notQuote).length
      = (sp ++ n).length + 7 := by
    rw [takeWhile_append_of_all notQuote _ _ hpreq, hTWR]
    simp [List.length_append]
    omega
  have hdrop : ∀ k : Nat,
      ((sp ++ n) ++ (' ' :: 's' :: 'a' :: 'i' :: 'd' :: ':' :: ' ' :: '"' :: (m ++ '"' :: tail))).drop ((sp ++ n).length + k) =
      (' ' :: 's' :: 'a' :: 'i' :: 'd' :: ':' :: ' ' :: '"' :: (m ++ '"' :: tail)).drop k :=
    fun k => List.drop_append _
  have nws : ∀ (c : Char) (Y : List Char), isPyWs c = false → matchTail (c :: Y) = none := by
    intro c Y hc
    simp [matchTail, List.takeWhile_cons, hc]
  have hnone : ∀ j, 1 ≤ j → j ≤ 7 →
      matchTail (((sp ++ n) ++ (' ' :: 's' :: 'a' :: 'i' :: 'd' :: ':' :: ' ' :: '"' :: (m ++ '"' :: tail))).drop ((sp ++ n).length + j)) = none := by
    intro j h1 h7
    rw [hdrop j]
    interval_cases j
    · exact nws 's' _ (by decide)
    · exact nws 'a' _ (by decide)
    · exact nws 'i' _ (by decide)
    · exact nws 'd' _ (by decide)
    · exact nws ':' _ (by decide)
    · -- after dropping 6 characters: a space, then `"` where `said:` is expected
      have hw1 : isPyWs ' ' = true := by decide
      have hw3 : isPyWs '"' = false := by decide
      have hpre6 : saidToken.isPrefixOf ('"' :: (m ++ '"' :: tail)) = false := by
        rw [show saidToken = 's' :: 'a' :: 'i' :: 'd' :: ':' :: [] from rfl, isPrefixOf_cons₂]
        simp [show (('s' : Char) == '"') = false from by decide]
      simp [matchTail, List.takeWhile_cons, List.dropWhile_cons, hw1, hw3, hpre6]
    · exact nws '"' _ (by decide)
  have hlen1 : 1 ≤ (sp ++ n).length := by
    have : n.length ≠ 0 := fun h0 => hn (List.length_eq_zero.mp h0)
    simp only [List.length_append]
    omega
  obtain ⟨j, hj⟩ : ∃ j, (sp ++ n).length = j + 1 := ⟨(sp ++ n).length - 1, by omega⟩
  have hfin : matchTail (((sp ++ n) ++ (' ' :: 's' :: 'a' :: 'i' :: 'd' :: ':' :: ' ' :: '"' :: (m ++ '"' :: tail))).drop (j + 1)) = some (m, tail) := by
    rw [← hj]
    have h0 := hdrop 0
    rw [Nat.add_zero, List.drop_zero] at h0
    rw [h0]
    exact matchTail_sep m tail hm hmq
  unfold matchAt
  rw [hP, tryGroup1_add_none _ _ 7 hnone, hj, tryGroup1_succ_some _ j m tail hfin, ← hj,
    List.take_left]

theorem enum_map_pyStrip (l : List (List Char × List Char)) :
    ((l.enum.map (fun p => DialogEntry.mk p.1 (pyStrip p.2.1) p.2.2)).map entryPair) =
      l.map (fun q => (pyStrip q.1, q.2)) := by
  suffices h : ∀ k, (((List.enumFrom k l).map
      (fun p => DialogEntry.mk p.1 (pyStrip p.2.1) p.2.2)).map entryPair) =
      l.map (fun q => (pyStrip q.1, q.2)) from h 0
  intro k
  induction l generalizing k with
  | nil => rfl
  | cons a l ih => simp [List.enumFrom, entryPair, ih]

theorem findAllAux_gen (L : List (List Char × List Char)) :
    ∀ (sp : List Char) (fuel : Nat),
      (∀ c ∈ sp, isPyWs c = true) → (∀ p ∈ L, GoodPair p) →
      (sp ++ joinSp (L.map seg)).length ≤ fuel →
      (findAllAux fuel (sp ++ joinSp (L.map seg))).map (fun q => (pyStrip q.1, q.2)) = L := by
  induction L with
  | nil =>
    intro sp fuel hws _ hlen
    rw [show joinSp (([] : List (List Char × List Char)).map seg) = [] from rfl,
      List.append_nil] at hlen ⊢
    rw [findAllAux_ws fuel sp hws hlen]
    rfl
  | cons p L ih =>
    intro sp fuel hws hgood hlen
    obtain ⟨hn_ne, hm_ne, hnq', hmq', -, -, hhead, hlast⟩ := hgood p (by simp)
    have hnq : ∀ c ∈ p.1, notQuote c = true := fun c hc => by
      simp only [notQuote, decide_eq_true_eq]
      exact hnq' c hc
    have hmq : ∀ c ∈ p.2, notQuote c = true := fun c hc => by
      simp only [notQuote, decide_eq_true_eq]
      exact hmq' c hc
    cases L with
    | nil =>
      have hform : sp ++ joinSp ([p].map seg) =
          sp ++ p.1 ++ (" said: \"").toList ++ p.2 ++ '"' :: [] := by
        simp [joinSp, seg, List.append_assoc,
          show ("\"").toList = ['"'] from rfl]
      rw [hform] at hlen ⊢
      cases fuel with
      | zero =>
        exfalso
        simp [List.length_append] at hlen
      | succ f =>
        have hmA := matchAt_seg sp p.1 p.2 [] hws hn_ne hnq hm_ne hmq
        simp only [findAllAux, hmA]
        rw [findAllAux_nil]
        simp [pyStrip_ws_wrap sp p.1 hws hhead hlast]
    | cons q L' =>
      have hform : sp ++ joinSp ((p :: q :: L').map seg) =
          sp ++ p.1 ++ (" said: \"").toList ++ p.2 ++
            '"' :: (' ' :: joinSp ((q :: L').map seg)) := by
        simp [joinSp, seg, List.append_assoc,
          show ("\"").toList = ['"'] from rfl, show (" ").toList = [' '] from rfl]
      rw [hform] at hlen ⊢
      cases fuel with
      | zero =>
        exfalso
        simp [List.length_append] at hlen
      | succ f =>
        have hmA := matchAt_seg sp p.1 p.2 (' ' :: joinSp ((q :: L').map seg))
          hws hn_ne hnq hm_ne hmq
        simp only [findAllAux, hmA]
        rw [List.map_cons]
        have hrec : (findAllAux f (' ' :: joinSp ((q :: L').map seg))).map
            (fun q => (pyStrip q.1, q.2)) = q :: L' := by
          rw [show (' ' :: joinSp ((q :: L').map seg)) =
            [' '] ++ joinSp ((q :: L').map seg) from rfl]
          apply ih [' '] f
          · intro c hc
            simp at hc
            subst hc
            decide
          · exact fun r hr => hgood r (List.mem_cons_of_mem p hr)
          · simp [List.length_append] at hlen ⊢
            omega
        rw [hrec, pyStrip_ws_wrap sp p.1 hws hhead hlast]

/-- Claim C10, counterexample: the turn list `[("A", "")]` contains no
literal `"` and no substring `said:`, yet serializing it gives
`A said: ""` whose empty message cannot be matched by `([^"]+)`, so
parsing back yields the empty list, not the original pair. -/
theorem c10_counterexample :
    (∀ c ∈ (("A").toList), c ≠ '"') ∧ ¬ saidToken <:+: (("A").toList) ∧
    (dialog_to_json (json_to_dialog [((("A").toList), ([] : List Char))])).map entryPair = [] ∧
    ([] : List (List Char × List Char)) ≠ [((("A").toList), ([] : List Char))] := by
  refine ⟨by decide, by decide, by decide, by decide⟩

/-- Claim C10 (amended): for every turn list whose names and messages
contain no literal `"` and no substring `said:`, and in addition are
non-empty with names carrying no leading or trailing whitespace,
converting to a transcript with `json_to_dialog` and back with
`dialog_to_json` yields the same sequence of (name, message) pairs in
the same order. -/
theorem c10_dialog_roundtrip (L : List (List Char × List Char))
    (h : ∀ p ∈ L, GoodPair p) :
    (dialog_to_json (json_to_dialog L)).map entryPair = L := by
  unfold dialog_to_json findAll
  rw [enum_map_pyStrip]
  have hgen := findAllAux_gen L [] (json_to_dialog L).length (by simp) h
    (by simp [json_to_dialog])
  simpa [json_to_dialog] using hgen

/-- Claim C10 witness: the amended round-trip at a concrete two-turn list. -/
theorem c10_witness :
    (∀ p ∈ [((("User").toList), (("first").toList)), ((("Waifu").toList), (("second").toList))],
      GoodPair p) ∧
    (dialog_to_json (json_to_dialog
        [((("User").toList), (("first").toList)), ((("Waifu").toList), (("second").toList))])).map entryPair =
      [((("User").toList), (("first").toList)), ((("Waifu").toList), (("second").toList))] :=
  ⟨by decide, c10_dialog_roundtrip _ (by decide)⟩

end Theorems

end WaifuApi
